import Mathlib

/-!
Verification of the sat-data-viewer repository: a shallow embedding of the
collection registry (src/config/collections.js), the tile URL builder, the
legend resolver, the STAC search client (src/utils/stacApi.js), the download
API wrapper (src/utils/api.js), the selection-state reducer (src/App.jsx) and
the Leaflet map overlay logic (src/components/MapLeaflet.jsx).

Modelling conventions:
* JavaScript objects used as finite string-keyed maps (the COLLECTIONS table,
  the bands table, the selectedBands map) are embedded as association lists
  over String with first-match lookup on own keys.
* JavaScript numbers are embedded as Rat (exact arithmetic); the range values
  of the elevation and thermal sliders are integers in the UI and are embedded
  as Int so that their string rendering matches the JavaScript rendering.
* A nullable or optional JavaScript value is embedded as Option; the JS
  truthiness test on a string value treats the empty string as false, which is
  transcribed explicitly wherever the source relies on it.
* URLSearchParams is embedded as a list of key-value pairs; its toString is
  embedded as ampersand-joined key=value segments (percent-encoding of the
  rendered characters is abstracted away; all claims are stated at the level
  of the parameter list).
-/

/-- The rescale configuration of a band, as written in the COLLECTIONS table:
either null, a string (including the string "dynamic"), or an array of
strings. -/
inductive RescaleCfg where
  | null
  | str (s : String)
  | arr (l : List String)
  deriving DecidableEq, Repr

/-- A legend entry of a band config: title, min label, max label and CSS
gradient, as in the COLLECTIONS table. -/
structure LegendCfg where
  title : String
  min : String
  max : String
  gradient : String
  deriving DecidableEq, Repr

/-- One band entry of a collection in the COLLECTIONS table. -/
structure BandConfig where
  label : String
  assets : List String
  rescale : RescaleCfg
  colormap : Option String
  legend : Option LegendCfg
  deriving DecidableEq, Repr

/-- One collection entry of the COLLECTIONS table, including the metadata
block (showTileId / showCloudCover) flattened into fields. -/
structure CollectionConfig where
  name : String
  displayName : String
  type : String
  hasCloudFilter : Bool
  hasDateFilter : Bool
  bands : List (String × BandConfig)
  defaultBand : String
  bandLayout : String
  showTileId : Bool
  showCloudCover : Bool
  deriving DecidableEq, Repr

/-- First-match lookup of a key in an association list: the OWN keys of a
JavaScript object literal used as a map. It deliberately drops the prototype
chain; the full bracket-lookup semantics, where a name inherited from
Object.prototype yields a truthy non-config value, is jsIndex below. -/
def tableLookup {α : Type} (tbl : List (String × α)) (k : String) : Option α :=
  match tbl with
  | [] => none
  | (k2, v) :: rest => if k2 = k then some v else tableLookup rest k

/-- The static COLLECTIONS registry of src/config/collections.js, transcribed
entry by entry. -/
def COLLECTIONS : List (String × CollectionConfig) :=
  [ ("sentinel-2-l2a",
     { name := "Sentinel-2 L2A"
       displayName := "Sentinel-2 (Optical)"
       type := "optical"
       hasCloudFilter := true
       hasDateFilter := true
       bands :=
         [ ("visual",
            { label := "TCI", assets := ["visual"], rescale := RescaleCfg.null
              colormap := none, legend := none }),
           ("nir",
            { label := "IR", assets := ["B08"], rescale := RescaleCfg.str "0,4000"
              colormap := some "inferno"
              legend := some
                { title := "Near Infrared", min := "0", max := "4000"
                  gradient := "linear-gradient(to right, #000004, #420a68, #932667, #dd513a, #fca50a, #fcffa4)" } }),
           ("swir",
            { label := "SWIR", assets := ["B11"], rescale := RescaleCfg.str "0,4000"
              colormap := some "blues"
              legend := some
                { title := "Short Wave Infrared", min := "0", max := "4000"
                  gradient := "linear-gradient(to right, #081d58, #253494, #225ea8, #1d91c0, #41b6c4, #7fcdbb, #c7e9b4, #edf8b1, #ffffd9)" } }),
           ("rededge",
            { label := "Red Edge", assets := ["B05"], rescale := RescaleCfg.str "0,4000"
              colormap := some "rdylgn"
              legend := some
                { title := "Red Edge", min := "0", max := "4000"
                  gradient := "linear-gradient(to right, #a50026, #d73027, #f46d43, #fdae61, #fee08b, #ffffbf, #d9ef8b, #a6d96a, #66bd63, #1a9850, #006837)" } }) ]
       defaultBand := "visual"
       bandLayout := "grid"
       showTileId := true
       showCloudCover := true }),
    ("landsat-c2-l2",
     { name := "Landsat C2 L2"
       displayName := "Landsat C2 L2 (Multispectral)"
       type := "optical"
       hasCloudFilter := true
       hasDateFilter := true
       bands :=
         [ ("visual",
            { label := "TCI", assets := ["red", "green", "blue"]
              rescale := RescaleCfg.arr ["7000,14000", "8000,13000", "8000,12000"]
              colormap := none, legend := none }),
           ("nir",
            { label := "NIR", assets := ["nir08"], rescale := RescaleCfg.str "0,30000"
              colormap := some "inferno"
              legend := some
                { title := "Near Infrared", min := "0", max := "30000"
                  gradient := "linear-gradient(to right, #000004, #420a68, #932667, #dd513a, #fca50a, #fcffa4)" } }),
           ("swir",
            { label := "SWIR", assets := ["swir16"], rescale := RescaleCfg.str "0,30000"
              colormap := some "blues"
              legend := some
                { title := "Short Wave Infrared", min := "0", max := "30000"
                  gradient := "linear-gradient(to right, #081d58, #253494, #225ea8, #1d91c0, #41b6c4, #7fcdbb, #c7e9b4, #edf8b1, #ffffd9)" } }),
           ("thermal",
            { label := "Thermal", assets := ["lwir11"], rescale := RescaleCfg.str "dynamic"
              colormap := some "turbo"
              legend := some
                { title := "Thermal", min := "dynamic", max := "dynamic"
                  gradient := "linear-gradient(to right, #23171b, #4e0d4e, #8c2981, #c84d6b, #f57e3e, #fbb43d, #e4e965)" } }) ]
       defaultBand := "visual"
       bandLayout := "grid"
       showTileId := false
       showCloudCover := true }),
    ("sentinel-1-rtc",
     { name := "Sentinel-1 RTC"
       displayName := "Sentinel-1 RTC (SAR)"
       type := "sar"
       hasCloudFilter := false
       hasDateFilter := true
       bands :=
         [ ("vv",
            { label := "VV", assets := ["vv"], rescale := RescaleCfg.str "0,0.3"
              colormap := some "viridis"
              legend := some
                { title := "SAR VV Polarization", min := "0", max := "0.3"
                  gradient := "linear-gradient(to right, #440154, #31688e, #35b779, #fde724)" } }),
           ("vh",
            { label := "VH", assets := ["vh"], rescale := RescaleCfg.str "0,0.3"
              colormap := some "viridis"
              legend := some
                { title := "SAR VH Polarization", min := "0", max := "0.3"
                  gradient := "linear-gradient(to right, #440154, #31688e, #35b779, #fde724)" } }) ]
       defaultBand := "vv"
       bandLayout := "flex"
       showTileId := false
       showCloudCover := false }),
    ("modis-13Q1-061",
     { name := "MODIS 13Q1"
       displayName := "MODIS Vegetation Indices"
       type := "vegetation"
       hasCloudFilter := false
       hasDateFilter := true
       bands :=
         [ ("ndvi",
            { label := "NDVI", assets := ["250m_16_days_NDVI"]
              rescale := RescaleCfg.str "-2000,10000"
              colormap := some "rdylgn"
              legend := some
                { title := "NDVI", min := "-0.2", max := "1.0"
                  gradient := "linear-gradient(to right, #a50026, #d73027, #f46d43, #fdae61, #fee08b, #ffffbf, #d9ef8b, #a6d96a, #66bd63, #1a9850, #006837)" } }),
           ("evi",
            { label := "EVI", assets := ["250m_16_days_EVI"]
              rescale := RescaleCfg.str "-2000,10000"
              colormap := some "rdylgn"
              legend := some
                { title := "EVI", min := "-0.2", max := "1.0"
                  gradient := "linear-gradient(to right, #a50026, #d73027, #f46d43, #fdae61, #fee08b, #ffffbf, #d9ef8b, #a6d96a, #66bd63, #1a9850, #006837)" } }) ]
       defaultBand := "ndvi"
       bandLayout := "flex"
       showTileId := false
       showCloudCover := false }),
    ("cop-dem-glo-30",
     { name := "Copernicus DEM"
       displayName := "Copernicus DEM (Elevation)"
       type := "elevation"
       hasCloudFilter := false
       hasDateFilter := false
       bands :=
         [ ("elevation",
            { label := "Elevation", assets := ["data"], rescale := RescaleCfg.str "dynamic"
              colormap := some "gist_earth"
              legend := some
                { title := "Elevation", min := "dynamic", max := "dynamic"
                  gradient := "linear-gradient(to right, #0c1c5c, #1e4d8b, #2d7bb6, #3fa855, #7ac74f, #c4d968, #e8c167, #d89a5a, #c4734d, #ffffff)" } }) ]
       defaultBand := "elevation"
       bandLayout := "none"
       showTileId := false
       showCloudCover := false }) ]

/-- An integer min/max range, the value shape of options.elevationRange and
options.thermalRange (the UI sliders only produce integers). -/
structure NumRange where
  min : Int
  max : Int
  deriving DecidableEq, Repr

/-- The options argument of buildTileUrl and getLegendConfig; each range is
absent (JS undefined) or present. -/
structure TileOptions where
  elevationRange : Option NumRange := none
  thermalRange : Option NumRange := none
  deriving DecidableEq, Repr

/-- Rendering of a range as the template string min,max used for the rescale
query parameter. -/
def rangeStr (r : NumRange) : String :=
  toString r.min ++ "," ++ toString r.max

/-- The base tile-server URL template of buildTileUrl. -/
def baseUrl : String :=
  "https://planetarycomputer.microsoft.com/api/data/v1/item/tiles/WebMercatorQuad/{z}/{x}/{y}@1x"

/-- The rescale parameters appended by buildTileUrl in its dynamic branch.
The JavaScript source tests (collection is cop-dem-glo-30 and
options.elevationRange is truthy), else (collection is landsat-c2-l2 and band
is thermal and options.thermalRange is truthy); the two collection tests are
mutually exclusive, so the nested form below is equivalent. -/
def dynamicRescaleParams (collection band : String) (options : TileOptions) :
    List (String × String) :=
  if collection = "cop-dem-glo-30" then
    match options.elevationRange with
    | some r => [("rescale", rangeStr r)]
    | none => []
  else if collection = "landsat-c2-l2" ∧ band = "thermal" then
    match options.thermalRange with
    | some r => [("rescale", rangeStr r)]
    | none => []
  else []

/-- The rescale parameters appended by buildTileUrl: the dynamic branch when
the configured rescale is the string "dynamic", one parameter per entry when
it is an array, a single parameter when it is a truthy string (the empty
string is falsy in JavaScript), and nothing when it is null. -/
def rescaleParams (collection band : String) (rc : RescaleCfg)
    (options : TileOptions) : List (String × String) :=
  match rc with
  | RescaleCfg.str s =>
      if s = "dynamic" then dynamicRescaleParams collection band options
      else if s = "" then [] else [("rescale", s)]
  | RescaleCfg.arr l => l.map (fun r => ("rescale", r))
  | RescaleCfg.null => []

/-- The colormap_name parameter appended by buildTileUrl when the configured
colormap is truthy (non-null and not the empty string). -/
def colormapParams (cm : Option String) : List (String × String) :=
  match cm with
  | some c => if c = "" then [] else [("colormap_name", c)]
  | none => []

/-- The full query-parameter list assembled by buildTileUrl, in append order:
collection and item, then one assets parameter per configured asset, then the
rescale parameters, then the colormap parameter. -/
def tileParams (collection itemId : String) (bandConfig : BandConfig)
    (band : String) (options : TileOptions) : List (String × String) :=
  [("collection", collection), ("item", itemId)]
    ++ bandConfig.assets.map (fun a => ("assets", a))
    ++ rescaleParams collection band bandConfig.rescale options
    ++ colormapParams bandConfig.colormap

/-- Rendering of a parameter list as a query string, embedding
URLSearchParams.toString (percent-encoding abstracted). -/
def paramsToString (ps : List (String × String)) : String :=
  String.intercalate "&" (ps.map (fun p => p.1 ++ "=" ++ p.2))

/-- buildTileUrl of src/config/collections.js: null when the collection or the
band is unknown, otherwise the base template URL followed by the assembled
query string. -/
def buildTileUrl (collection itemId band : String)
    (options : TileOptions := {}) : Option String :=
  match tableLookup COLLECTIONS collection with
  | none => none
  | some collectionConfig =>
    match tableLookup collectionConfig.bands band with
    | none => none
    | some bandConfig =>
      some (baseUrl ++ "?" ++ paramsToString (tileParams collection itemId bandConfig band options))

/-- The two-stage lookup performed by buildTileUrl and getLegendConfig:
collection config, then band config. -/
def bandLookup (collection band : String) : Option BandConfig :=
  match tableLookup COLLECTIONS collection with
  | none => none
  | some collectionConfig => tableLookup collectionConfig.bands band

/-- The dynamic-label substitution of getLegendConfig on a copy of the
configured legend. The JavaScript source tests (legend.min is "dynamic" and
collection is cop-dem-glo-30 and options.elevationRange), else the analogous
landsat-c2-l2 thermal test; the two collection tests are mutually exclusive,
so the nested form below is equivalent. -/
def applyDynamicLegend (collection band : String) (options : TileOptions)
    (legend : LegendCfg) : LegendCfg :=
  if legend.min = "dynamic" then
    if collection = "cop-dem-glo-30" then
      match options.elevationRange with
      | some r => { legend with min := toString r.min ++ "m", max := toString r.max ++ "m" }
      | none => legend
    else if collection = "landsat-c2-l2" ∧ band = "thermal" then
      match options.thermalRange with
      | some r => { legend with min := toString r.min, max := toString r.max }
      | none => legend
    else legend
  else legend

/-- getLegendConfig of src/config/collections.js: null when the collection or
the band is unknown or the band has a null legend, otherwise the configured
legend with dynamic min/max labels substituted. -/
def getLegendConfig (collection band : String)
    (options : TileOptions := {}) : Option LegendCfg :=
  match tableLookup COLLECTIONS collection with
  | none => none
  | some collectionConfig =>
    match tableLookup collectionConfig.bands band with
    | none => none
    | some bandConfig =>
      match bandConfig.legend with
      | none => none
      | some legend => some (applyDynamicLegend collection band options legend)

/-- The JavaScript a || b on two possibly-absent strings: the left value when
it is present and truthy (non-empty), otherwise the right operand. -/
def jsOr (a b : Option String) : Option String :=
  match a with
  | some s => if s = "" then b else some s
  | none => b

/-- The JavaScript a || b where a is a string and b a fallback string. -/
def jsOrStr (a b : String) : String :=
  if a = "" then b else a

/-- The query field of a STAC search body with a cloud-cover filter,
embedding the object with key eo:cloud_cover mapped to an lt bound. -/
structure CloudQuery where
  lt : Rat
  deriving DecidableEq, Repr

/-- The request body assembled by searchSatelliteData; the datetime and query
fields are only conditionally present. -/
structure StacSearchBody where
  collections : List String
  bbox : List Rat
  limit : Nat
  datetime : Option String
  query : Option CloudQuery
  deriving DecidableEq, Repr

/-- searchSatelliteData of src/utils/stacApi.js, embedded by the request body
it posts to the STAC search endpoint (the axios POST itself and the
passthrough of the response are outside the embedding). The default argument
values transcribe the JavaScript defaults. -/
def searchSatelliteData (bbox : List Rat) (startDate endDate : String)
    (collection : String := "sentinel-2-l2a") (cloudCover : Rat := 20)
    (limit : Nat := 10) : StacSearchBody :=
  let config := tableLookup COLLECTIONS collection
  { collections := [collection]
    bbox := bbox
    limit := limit
    datetime :=
      if (config.map (fun c => c.hasDateFilter)).getD false then
        some (startDate ++ "/" ++ endDate)
      else none
    query :=
      if (config.map (fun c => c.hasCloudFilter)).getD false then
        some { lt := cloudCover }
      else none }

/-- The date components the JavaScript Date accessors return for a parsed
date string: getDate (day of month), getMonth (zero-based month) and
getFullYear. -/
structure JSDateParts where
  getDate : Int
  getMonth : Int
  getFullYear : Int
  deriving DecidableEq, Repr

/-- String.prototype.padStart(2, "0"): left-pad with zeros to length two. -/
def padStart2 (s : String) : String :=
  if s.length < 2 then String.mk (List.replicate (2 - s.length) '0') ++ s else s

/-- Number.prototype.toFixed(1) on a non-negative exact rational: round to the
nearest tenth, ties upward, and render as units.tenths. -/
def toFixed1Nonneg (x : Rat) : String :=
  toString ((x * 10 + 1 / 2).floor / 10) ++ "." ++ toString ((x * 10 + 1 / 2).floor % 10)

/-- Number.prototype.toFixed(1) embedded on exact rationals: negative inputs
render as a minus sign followed by the rendering of the magnitude. -/
def toFixed1 (x : Rat) : String :=
  if x < 0 then "-" ++ toFixed1Nonneg (-x) else toFixed1Nonneg x

/-- The properties block of a STAC item, restricted to the fields
formatStacItem reads: datetime, start_datetime and eo:cloud_cover. -/
structure StacProperties where
  datetime : Option String
  start_datetime : Option String
  cloud_cover : Option Rat
  deriving DecidableEq, Repr

/-- A STAC item, restricted to the fields the claims are about (the geometry,
assets and thumbnail passthrough fields are outside the embedding). -/
structure StacItem where
  id : String
  properties : StacProperties
  bbox : Option (List Rat)
  deriving DecidableEq, Repr

/-- The normalized record formatStacItem produces (geometry, assets,
thumbnail and the properties passthrough are outside the embedding). -/
structure FormattedItem where
  id : String
  date : String
  cloudCover : String
  bbox : Option (List Rat)
  collection : String
  provider : String
  deriving DecidableEq, Repr

/-- getProviderName of src/utils/stacApi.js. -/
def getProviderName : String :=
  "Microsoft Planetary Computer"

/-- formatStacItem of src/utils/stacApi.js. The JavaScript Date constructor
is embedded as the explicit parseDate parameter giving the date accessors for
a date string; when neither datetime nor start_datetime is a truthy string,
every accessor of the invalid date renders as NaN, which the embedding fixes
as the literal rendering NaN/NaN/NaN. -/
def formatStacItem (parseDate : String → JSDateParts) (item : StacItem)
    (collection : String := "sentinel-2-l2a") : FormattedItem :=
  let dateString := jsOr item.properties.datetime item.properties.start_datetime
  let danishDate :=
    match dateString with
    | some ds =>
        let d := parseDate ds
        padStart2 (toString d.getDate) ++ "/" ++
          padStart2 (toString (d.getMonth + 1)) ++ "/" ++ toString d.getFullYear
    | none => "NaN/NaN/NaN"
  { id := item.id
    date := danishDate
    cloudCover :=
      match item.properties.cloud_cover with
      | some v => jsOrStr (toFixed1 v) "N/A"
      | none => "N/A"
    bbox := item.bbox
    collection := collection
    provider := getProviderName }

/-- The error raised by downloadTile: an Error with a message on the non-ok
path, or the rejection of response.json() on an ok response whose body is not
JSON. -/
inductive DlError where
  | message (s : String)
  | jsonParse
  deriving DecidableEq, Repr

/-- The parsed JSON body of a download-backend response, restricted to the
fields downloadTile and its caller read. -/
structure RespJson where
  detail : Option String := none
  download_url : Option String := none
  filename : Option String := none
  deriving DecidableEq, Repr

/-- An HTTP response to the POST /download request: the ok flag and the JSON
body, with none standing for a body that response.json() fails to parse. -/
structure HttpResponse where
  ok : Bool
  jsonBody : Option RespJson
  deriving DecidableEq, Repr

/-- downloadTile of src/utils/api.js, embedded from the response on: on a
non-ok response the parsed detail field (with the catch fallback object and
the || fallback both giving the message Download failed) is raised as an
error; on an ok response the parsed JSON body is returned, and the rejection
of response.json() on an unparseable body is the jsonParse error. -/
def downloadTile (response : HttpResponse) : Except DlError RespJson :=
  if response.ok = false then
    let errObj := response.jsonBody.getD { detail := some "Download failed" }
    Except.error (DlError.message
      (match errObj.detail with
       | some d => if d = "" then "Download failed" else d
       | none => "Download failed"))
  else
    match response.jsonBody with
    | some data => Except.ok data
    | none => Except.error DlError.jsonParse

/-- handleToggleImage of src/App.jsx, as the pure update of the
selected-image id list: remove the id when present, append it when absent. -/
def toggleImage (prev : List String) (id : String) : List String :=
  if prev.contains id then prev.filter (fun x => x != id) else prev ++ [id]

/-- An operation on the selection state: a toggle of one image id, or the
clear-all of handleClearSelections. -/
inductive SelOp where
  | toggle (id : String)
  | clear
  deriving DecidableEq, Repr

/-- One step of the selection state. -/
def applySelOp (l : List String) : SelOp → List String
  | SelOp.toggle id => toggleImage l id
  | SelOp.clear => []

/-- A sequence of selection operations applied in order. -/
def applySelOps (l : List String) : List SelOp → List String
  | [] => l
  | op :: ops => applySelOps (applySelOp l op) ops

/-- The Leaflet latLngBounds of two corners: the normalized south, north,
west and east edges. -/
structure LatLngBounds where
  south : Rat
  north : Rat
  west : Rat
  east : Rat
  deriving DecidableEq, Repr

/-- L.latLngBounds on two corner points (lat, lng): edges are the coordinate
minima and maxima. -/
def latLngBounds (c1 c2 : Rat × Rat) : LatLngBounds :=
  { south := min c1.1 c2.1
    north := max c1.1 c2.1
    west := min c1.2 c2.2
    east := max c1.2 c2.2 }

/-- The click handler installed by startDrawing in
src/components/MapLeaflet.jsx: the search rectangle around the clicked point
with latOffset 0.09 and lngOffset 0.15, emitted to onBboxChange as
the array west, south, east, north. -/
def searchBboxFromClick (lat lng : Rat) : List Rat :=
  let latOffset : Rat := 0.09
  let lngOffset : Rat := 0.15
  let bounds := latLngBounds (lat - latOffset, lng - lngOffset)
    (lat + latOffset, lng + lngOffset)
  [bounds.west, bounds.south, bounds.east, bounds.north]

/-- An overlay created by the map overlay effect for one selected image: the
tile layer URL and the border rectangle share the bounds
((south, west), (north, east)). -/
structure OverlayLayer where
  id : String
  bounds : (Rat × Rat) × (Rat × Rat)
  tileUrl : Option String
  deriving DecidableEq, Repr

/-- The band chosen for an image by the overlay effect:
selectedBands[image.id] || collectionConfig?.defaultBand || "visual". -/
def bandFor (collection : String) (selectedBands : List (String × String))
    (imageId : String) : String :=
  jsOrStr
    ((jsOr (tableLookup selectedBands imageId)
        ((tableLookup COLLECTIONS collection).map
          (fun c => c.defaultBand))).getD "")
    "visual"

/-- The per-image body of the map overlay effect of part_004: skip the image
when its bbox is missing or does not have exactly four entries or is not in
south/north west/east order; otherwise create the tile layer (through
buildTileUrl) and the border rectangle on the shared bounds. -/
def overlayFor (collection : String) (selectedBands : List (String × String))
    (elevationRange thermalRange : Option NumRange) (image : FormattedItem) :
    Option OverlayLayer :=
  match image.bbox with
  | none => none
  | some bbox =>
    if bbox.length ≠ 4 then none
    else
      match bbox with
      | [west, south, east, north] =>
        if south > north ∨ west > east then none
        else
          some
            { id := image.id
              bounds := ((south, west), (north, east))
              tileUrl := buildTileUrl collection image.id
                (bandFor collection selectedBands image.id)
                { elevationRange := elevationRange, thermalRange := thermalRange } }
      | _ => none

/-- The map overlay effect over the whole selection: nothing when no image is
selected, otherwise one overlay per selected search result that passes the
bbox validation. -/
def overlaysFor (collection : String) (selectedBands : List (String × String))
    (elevationRange thermalRange : Option NumRange)
    (selectedImages : List String) (searchResults : List FormattedItem) :
    List OverlayLayer :=
  if selectedImages = [] then []
  else
    (searchResults.filter (fun item => selectedImages.contains item.id)).filterMap
      (overlayFor collection selectedBands elevationRange thermalRange)

/-- One call to the pure config API: a tile URL request or a legend request. -/
inductive ApiCall where
  | tile (collection itemId band : String) (options : TileOptions)
  | legend (collection band : String) (options : TileOptions)
  deriving DecidableEq, Repr

/-- The result of one config API call. -/
inductive ApiResult where
  | url (r : Option String)
  | leg (r : Option LegendCfg)
  deriving DecidableEq, Repr

/-- buildTileUrl generalized over the registry table it reads. -/
def buildTileUrlWith (tbl : List (String × CollectionConfig))
    (collection itemId band : String) (options : TileOptions) : Option String :=
  match tableLookup tbl collection with
  | none => none
  | some collectionConfig =>
    match tableLookup collectionConfig.bands band with
    | none => none
    | some bandConfig =>
      some (baseUrl ++ "?" ++ paramsToString (tileParams collection itemId bandConfig band options))

/-- getLegendConfig generalized over the registry table it reads. -/
def getLegendConfigWith (tbl : List (String × CollectionConfig))
    (collection band : String) (options : TileOptions) : Option LegendCfg :=
  match tableLookup tbl collection with
  | none => none
  | some collectionConfig =>
    match tableLookup collectionConfig.bands band with
    | none => none
    | some bandConfig =>
      match bandConfig.legend with
      | none => none
      | some legend => some (applyDynamicLegend collection band options legend)

/-- Evaluation of one config API call against a registry table; the call
reads the table and leaves it unchanged. -/
def evalCallWith (tbl : List (String × CollectionConfig)) :
    ApiCall → ApiResult × List (String × CollectionConfig)
  | ApiCall.tile collection itemId band options =>
      (ApiResult.url (buildTileUrlWith tbl collection itemId band options), tbl)
  | ApiCall.legend collection band options =>
      (ApiResult.leg (getLegendConfigWith tbl collection band options), tbl)

/-- The per-call result against the static registry. -/
def evalCall (c : ApiCall) : ApiResult :=
  (evalCallWith COLLECTIONS c).1

/-- A sequence of config API calls threading the registry table through every
call, collecting the per-call results and the final table. -/
def runCalls (calls : List ApiCall) (tbl : List (String × CollectionConfig)) :
    List ApiResult × List (String × CollectionConfig) :=
  match calls with
  | [] => ([], tbl)
  | c :: cs =>
    let step := evalCallWith tbl c
    let rest := runCalls cs step.2
    (step.1 :: rest.1, rest.2)

/-- The values of all parameters with a given key, in order, in an assembled
parameter list. -/
def keyVals (ps : List (String × String)) (k : String) : List String :=
  (ps.filter (fun p => p.1 == k)).map (fun p => p.2)

/-- The visual band entry of the landsat-c2-l2 collection, as registered in
COLLECTIONS. -/
def landsatVisualBand : BandConfig :=
  { label := "TCI", assets := ["red", "green", "blue"]
    rescale := RescaleCfg.arr ["7000,14000", "8000,13000", "8000,12000"]
    colormap := none, legend := none }

/-- The legend of the cop-dem-glo-30 elevation band, as registered in
COLLECTIONS. -/
def demElevationLegend : LegendCfg :=
  { title := "Elevation", min := "dynamic", max := "dynamic"
    gradient := "linear-gradient(to right, #0c1c5c, #1e4d8b, #2d7bb6, #3fa855, #7ac74f, #c4d968, #e8c167, #d89a5a, #c4734d, #ffffff)" }

/-- The elevation band entry of the cop-dem-glo-30 collection, as registered
in COLLECTIONS. -/
def demElevationBand : BandConfig :=
  { label := "Elevation", assets := ["data"], rescale := RescaleCfg.str "dynamic"
    colormap := some "gist_earth", legend := some demElevationLegend }

/-- The legend of the landsat-c2-l2 thermal band, as registered in
COLLECTIONS. -/
def landsatThermalLegend : LegendCfg :=
  { title := "Thermal", min := "dynamic", max := "dynamic"
    gradient := "linear-gradient(to right, #23171b, #4e0d4e, #8c2981, #c84d6b, #f57e3e, #fbb43d, #e4e965)" }

/-- The thermal band entry of the landsat-c2-l2 collection, as registered in
COLLECTIONS. -/
def landsatThermalBand : BandConfig :=
  { label := "Thermal", assets := ["lwir11"], rescale := RescaleCfg.str "dynamic"
    colormap := some "turbo", legend := some landsatThermalLegend }

/-- The own property names of Object.prototype: indexing a plain object
literal with one of these names yields a truthy inherited value (a builtin
function, or Object.prototype itself for the dunder-proto accessor) even
though the name is not an own key of the literal. -/
def protoKeys : List String :=
  ["constructor", "hasOwnProperty", "isPrototypeOf", "propertyIsEnumerable",
   "toLocaleString", "toString", "valueOf", "__proto__", "__defineGetter__",
   "__defineSetter__", "__lookupGetter__", "__lookupSetter__"]

/-- The result of the JavaScript bracket lookup obj[k] on a plain object
literal: the value of an own key, a truthy non-config object for a name
inherited from Object.prototype, or undefined. -/
inductive JsProp (α : Type) where
  | own (v : α)
  | inherited
  | undef
  deriving DecidableEq, Repr

/-- The JavaScript bracket lookup obj[k] with the prototype chain of a plain
object literal. -/
def jsIndex {α : Type} (tbl : List (String × α)) (k : String) : JsProp α :=
  match tableLookup tbl k with
  | some v => JsProp.own v
  | none => if k ∈ protoKeys then JsProp.inherited else JsProp.undef

/-- The TypeError thrown by a property access on undefined. -/
inductive JsTypeError where
  | typeError
  deriving DecidableEq, Repr

/-- buildTileUrl under full JavaScript object semantics. A name inherited
from Object.prototype is truthy, so it passes the falsiness guard and the
function then reads a property of undefined and throws: an inherited
collection lookup throws at collectionConfig.bands[band], and an inherited
band lookup passes Array.isArray(undefined) = false and throws at
bandConfig.assets[0]. Error is that TypeError, ok none the null return, and
ok (some url) the built URL. -/
def buildTileUrlJs (collection itemId band : String)
    (options : TileOptions := {}) : Except JsTypeError (Option String) :=
  match jsIndex COLLECTIONS collection with
  | JsProp.undef => Except.ok none
  | JsProp.inherited => Except.error JsTypeError.typeError
  | JsProp.own collectionConfig =>
    match jsIndex collectionConfig.bands band with
    | JsProp.undef => Except.ok none
    | JsProp.inherited => Except.error JsTypeError.typeError
    | JsProp.own bandConfig =>
      Except.ok (some (baseUrl ++ "?" ++
        paramsToString (tileParams collection itemId bandConfig band options)))

/-- getLegendConfig under full JavaScript object semantics. An inherited
collection lookup throws at collectionConfig.bands[band]; an inherited band
lookup does NOT throw, because bandConfig.legend is then undefined and the
falsiness guard returns null before any further access. -/
def getLegendConfigJs (collection band : String)
    (options : TileOptions := {}) : Except JsTypeError (Option LegendCfg) :=
  match jsIndex COLLECTIONS collection with
  | JsProp.undef => Except.ok none
  | JsProp.inherited => Except.error JsTypeError.typeError
  | JsProp.own collectionConfig =>
    match jsIndex collectionConfig.bands band with
    | JsProp.undef => Except.ok none
    | JsProp.inherited => Except.ok none
    | JsProp.own bandConfig =>
      match bandConfig.legend with
      | none => Except.ok none
      | some legend =>
        Except.ok (some (applyDynamicLegend collection band options legend))

lemma tableLookup_mem {α : Type} {tbl : List (String × α)} {k : String} {v : α}
    (h : tableLookup tbl k = some v) : (k, v) ∈ tbl := by
  induction tbl with
  | nil => simp [tableLookup] at h
  | cons p rest ih =>
    obtain ⟨k2, v2⟩ := p
    by_cases hk : k2 = k
    · subst hk
      simp [tableLookup] at h
      subst h
      exact List.mem_cons_self _ _
    · simp only [tableLookup, if_neg hk] at h
      exact List.mem_cons_of_mem _ (ih h)

lemma contains_eq_true_iff {l : List String} {a : String} :
    l.contains a = true ↔ a ∈ l := by
  simp [List.contains, List.elem_iff]

lemma filter_ne_of_not_mem {l : List String} {id : String} (h : id ∉ l) :
    l.filter (fun x => x != id) = l := by
  apply List.filter_eq_self.mpr
  intro a ha
  simp only [bne_iff_ne, ne_eq, decide_eq_true_eq]
  exact fun he => h (he ▸ ha)

lemma toggleImage_nodup (l : List String) (id : String) (h : l.Nodup) :
    (toggleImage l id).Nodup := by
  unfold toggleImage
  by_cases hm : id ∈ l
  · rw [if_pos (contains_eq_true_iff.mpr hm)]
    exact h.filter _
  · rw [if_neg (fun hc => hm (contains_eq_true_iff.mp hc))]
    refine List.Nodup.append h (List.nodup_singleton id) ?_
    intro a ha hb
    simp only [List.mem_singleton] at hb
    exact hm (hb ▸ ha)

lemma applySelOps_nodup (ops : List SelOp) :
    ∀ l : List String, l.Nodup → (applySelOps l ops).Nodup := by
  induction ops with
  | nil => intro l h; exact h
  | cons op rest ih =>
    intro l h
    cases op with
    | toggle i => exact ih _ (toggleImage_nodup l i h)
    | clear => exact ih _ List.nodup_nil

lemma toggle_twice_perm (l : List String) (id : String) (h : l.Nodup) :
    (toggleImage (toggleImage l id) id).Perm l := by
  by_cases hm : id ∈ l
  · have h1 : toggleImage l id = l.filter (fun x => x != id) := by
      unfold toggleImage
      rw [if_pos (contains_eq_true_iff.mpr hm)]
    have hnotmem : id ∉ l.filter (fun x => x != id) := by
      intro hc
      have := (List.mem_filter.mp hc).2
      simp at this
    have h2 : toggleImage (toggleImage l id) id = l.filter (fun x => x != id) ++ [id] := by
      rw [h1]
      unfold toggleImage
      rw [if_neg (fun hc => hnotmem (contains_eq_true_iff.mp hc))]
    rw [h2]
    have hperm1 : (l.filter (fun x => x != id) ++ [id]).Perm (id :: l.filter (fun x => x != id)) :=
      List.perm_append_singleton id _
    refine hperm1.trans ?_
    have herase : l.filter (fun x => x != id) = l.erase id := by
      rw [h.erase_eq_filter]
    rw [herase]
    exact (List.perm_cons_erase hm).symm
  · have h1 : toggleImage l id = l ++ [id] := by
      unfold toggleImage
      rw [if_neg (fun hc => hm (contains_eq_true_iff.mp hc))]
    have h2 : toggleImage (l ++ [id]) id = l := by
      unfold toggleImage
      rw [if_pos (contains_eq_true_iff.mpr (List.mem_append_right l (List.mem_singleton_self id)))]
      rw [List.filter_append, filter_ne_of_not_mem hm]
      simp
    rw [h1, h2]

lemma toggle_twice_eq_of_not_mem (l : List String) (id : String) (hm : id ∉ l) :
    toggleImage (toggleImage l id) id = l := by
  have h1 : toggleImage l id = l ++ [id] := by
    unfold toggleImage
    rw [if_neg (fun hc => hm (contains_eq_true_iff.mp hc))]
  rw [h1]
  unfold toggleImage
  rw [if_pos (contains_eq_true_iff.mpr (List.mem_append_right l (List.mem_singleton_self id)))]
  rw [List.filter_append, filter_ne_of_not_mem hm]
  simp

/-- C6: the bbox emitted to onBboxChange for a click at (lat, lng) is the
four-number array west, south, east, north with west = lng - 0.15,
south = lat - 0.09, east = lng + 0.15, north = lat + 0.09, and the emitted
bbox always satisfies west < east and south < north. -/
theorem searchBboxFromClick_spec (lat lng : Rat) :
    searchBboxFromClick lat lng =
      [lng - 0.15, lat - 0.09, lng + 0.15, lat + 0.09] ∧
    lng - 0.15 < lng + 0.15 ∧ lat - 0.09 < lat + 0.09 := by
  have hlat : lat - 0.09 ≤ lat + 0.09 := by linarith
  have hlng : lng - 0.15 ≤ lng + 0.15 := by linarith
  refine ⟨?_, by linarith, by linarith⟩
  simp [searchBboxFromClick, latLngBounds, min_eq_left hlat, min_eq_left hlng,
    max_eq_right hlat, max_eq_right hlng]

/-- C2: the search request body always carries collections = [collection],
the given bbox and the given limit (with 10 as the default limit); it carries
datetime = startDate/endDate exactly when the registry entry of the
collection has hasDateFilter, and the eo:cloud_cover lt query exactly when
the registry entry has hasCloudFilter. -/
theorem searchSatelliteData_spec (bbox : List Rat)
    (startDate endDate collection : String) (cloudCover : Rat) (lim : Nat) :
    (searchSatelliteData bbox startDate endDate collection cloudCover lim).collections = [collection] ∧
    (searchSatelliteData bbox startDate endDate collection cloudCover lim).bbox = bbox ∧
    (searchSatelliteData bbox startDate endDate collection cloudCover lim).limit = lim ∧
    (searchSatelliteData bbox startDate endDate collection cloudCover).limit = 10 ∧
    ((searchSatelliteData bbox startDate endDate collection cloudCover lim).datetime
        = some (startDate ++ "/" ++ endDate) ↔
      ∃ cfg, tableLookup COLLECTIONS collection = some cfg ∧ cfg.hasDateFilter = true) ∧
    ((searchSatelliteData bbox startDate endDate collection cloudCover lim).datetime = none ↔
      ¬ ∃ cfg, tableLookup COLLECTIONS collection = some cfg ∧ cfg.hasDateFilter = true) ∧
    ((searchSatelliteData bbox startDate endDate collection cloudCover lim).query
        = some { lt := cloudCover } ↔
      ∃ cfg, tableLookup COLLECTIONS collection = some cfg ∧ cfg.hasCloudFilter = true) ∧
    ((searchSatelliteData bbox startDate endDate collection cloudCover lim).query = none ↔
      ¬ ∃ cfg, tableLookup COLLECTIONS collection = some cfg ∧ cfg.hasCloudFilter = true) := by
  cases h : tableLookup COLLECTIONS collection with
  | none => simp [searchSatelliteData, h]
  | some cfg =>
    cases hd : cfg.hasDateFilter <;> cases hc : cfg.hasCloudFilter <;>
      simp [searchSatelliteData, h, hd, hc]

/-- C7 counterexample: on an ok response whose body does not parse as JSON,
downloadTile raises the rejection of response.json() even though the response
is ok, refuting the if-and-only-if between raising and a non-ok response. -/
theorem downloadTile_ok_unparseable_counterexample :
    downloadTile { ok := true, jsonBody := none } = Except.error DlError.jsonParse := rfl

/-- C7 amended: downloadTile raises an error exactly when the response is not
ok or its body does not parse as JSON; on a non-ok response the message is
the detail field when the body parses as JSON and has a truthy detail, and
Download failed otherwise; on an ok response whose body parses as JSON it
resolves with the parsed body. -/
theorem downloadTile_spec (response : HttpResponse) :
    ((∃ e, downloadTile response = Except.error e) ↔
      (response.ok = false ∨ response.jsonBody = none)) ∧
    downloadTile response =
      (if response.ok = false then
        Except.error (DlError.message
          (match response.jsonBody with
           | some j =>
             match j.detail with
             | some d => if d = "" then "Download failed" else d
             | none => "Download failed"
           | none => "Download failed"))
      else
        match response.jsonBody with
        | some data => Except.ok data
        | none => Except.error DlError.jsonParse) := by
  obtain ⟨ok, body⟩ := response
  cases ok <;> cases body <;> simp [downloadTile]

/-- C8 counterexample: the duplicate-free list with entries a then b, toggled
twice on a, comes back as b then a, not as the original list: a removed id is
re-appended at the end, so toggling twice does not return the original list. -/
theorem toggleImage_twice_counterexample :
    List.Nodup ["a", "b"] ∧
    toggleImage (toggleImage ["a", "b"] "a") "a" = ["b", "a"] ∧
    toggleImage (toggleImage ["a", "b"] "a") "a" ≠ ["a", "b"] := by
  refine ⟨by decide, by decide, by decide⟩

/-- C8 amended: toggling removes the id when present (keeping the order of
the rest) and appends it when absent; from a duplicate-free list, toggling
the same image twice returns a permutation of the original list, and exactly
the original list when the id was absent; and the selection stays
duplicate-free under any sequence of toggle and clear operations. -/
theorem toggleImage_spec (l : List String) (id : String) (ops : List SelOp)
    (hnd : l.Nodup) :
    (id ∈ l → toggleImage l id = l.filter (fun x => x != id)) ∧
    (id ∉ l → toggleImage l id = l ++ [id]) ∧
    (toggleImage (toggleImage l id) id).Perm l ∧
    (id ∉ l → toggleImage (toggleImage l id) id = l) ∧
    (applySelOps l ops).Nodup := by
  refine ⟨?_, ?_, toggle_twice_perm l id hnd, toggle_twice_eq_of_not_mem l id,
    applySelOps_nodup ops l hnd⟩
  · intro hm
    unfold toggleImage
    rw [if_pos (contains_eq_true_iff.mpr hm)]
  · intro hm
    unfold toggleImage
    rw [if_neg (fun hc => hm (contains_eq_true_iff.mp hc))]

/-- C8 witness: the amended toggle specification at the concrete
duplicate-free list with entries a then b, id c and a concrete operation
sequence. -/
theorem toggleImage_spec_witness :
    List.Nodup ["a", "b"] ∧
    (("c" ∈ ["a", "b"] → toggleImage ["a", "b"] "c" = List.filter (fun x => x != "c") ["a", "b"]) ∧
     ("c" ∉ ["a", "b"] → toggleImage ["a", "b"] "c" = ["a", "b"] ++ ["c"]) ∧
     (toggleImage (toggleImage ["a", "b"] "c") "c").Perm ["a", "b"] ∧
     ("c" ∉ ["a", "b"] → toggleImage (toggleImage ["a", "b"] "c") "c" = ["a", "b"]) ∧
     (applySelOps ["a", "b"] [SelOp.toggle "b", SelOp.clear, SelOp.toggle "a"]).Nodup) :=
  ⟨by decide, toggleImage_spec ["a", "b"] "c" [SelOp.toggle "b", SelOp.clear, SelOp.toggle "a"] (by decide)⟩

lemma evalCallWith_snd (tbl : List (String × CollectionConfig)) (c : ApiCall) :
    (evalCallWith tbl c).2 = tbl := by
  cases c <;> rfl

lemma runCalls_eq (calls : List ApiCall) (tbl : List (String × CollectionConfig)) :
    runCalls calls tbl = (calls.map (fun c => (evalCallWith tbl c).1), tbl) := by
  induction calls with
  | nil => rfl
  | cons c cs ih =>
    simp only [runCalls, evalCallWith_snd, List.map_cons, ih]

/-- C4: buildTileUrl and getLegendConfig are pure and deterministic over the
static COLLECTIONS table. A sequence of calls threading the table through
every call leaves the table unchanged and returns, for every call, the value
of the corresponding pure function of its arguments alone; in particular the
result of a call does not depend on the calls before or after it, so any
order of calls yields the same per-call results. -/
theorem configApi_pure_deterministic (calls pre post : List ApiCall) (c : ApiCall)
    (collection itemId band : String) (options : TileOptions) :
    (runCalls calls COLLECTIONS).2 = COLLECTIONS ∧
    (runCalls calls COLLECTIONS).1 = calls.map evalCall ∧
    ((runCalls (pre ++ c :: post) COLLECTIONS).1[pre.length]? = some (evalCall c)) ∧
    evalCall (ApiCall.tile collection itemId band options)
      = ApiResult.url (buildTileUrl collection itemId band options) ∧
    evalCall (ApiCall.legend collection band options)
      = ApiResult.leg (getLegendConfig collection band options) := by
  refine ⟨?_, ?_, ?_, rfl, rfl⟩
  · rw [runCalls_eq]
  · rw [runCalls_eq]
    rfl
  · rw [runCalls_eq]
    simp only [List.map_append, List.map_cons]
    rw [List.getElem?_append_right (by simp)]
    simp [evalCall]

lemma toFixed1Nonneg_ne_empty (x : Rat) : toFixed1Nonneg x ≠ "" := by
  intro h
  have hlen := congrArg String.length h
  unfold toFixed1Nonneg at hlen
  rw [String.length_append, String.length_append] at hlen
  have h1 : String.length "." = 1 := rfl
  have h0 : String.length "" = 0 := rfl
  omega

lemma toFixed1_ne_empty (x : Rat) : toFixed1 x ≠ "" := by
  unfold toFixed1
  split
  · intro h
    have hlen := congrArg String.length h
    rw [String.length_append] at hlen
    have h1 : String.length "-" = 1 := rfl
    have h0 : String.length "" = 0 := rfl
    omega
  · exact toFixed1Nonneg_ne_empty x

/-- C5: the formatted record keeps the item id, carries the collection
argument through, renders the date from the datetime property (falling back
to start_datetime when datetime is absent or empty) as the zero-padded
day/month/year string, and renders eo:cloud_cover to one decimal place, with
the string N/A when the property is absent. -/
theorem formatStacItem_spec (parseDate : String → JSDateParts) (item : StacItem)
    (collection : String) :
    (formatStacItem parseDate item collection).id = item.id ∧
    (formatStacItem parseDate item collection).collection = collection ∧
    (formatStacItem parseDate item collection).date =
      (match jsOr item.properties.datetime item.properties.start_datetime with
       | some ds =>
           padStart2 (toString (parseDate ds).getDate) ++ "/" ++
             padStart2 (toString ((parseDate ds).getMonth + 1)) ++ "/" ++
             toString (parseDate ds).getFullYear
       | none => "NaN/NaN/NaN") ∧
    (formatStacItem parseDate item collection).cloudCover =
      (match item.properties.cloud_cover with
       | some v => toFixed1 v
       | none => "N/A") := by
  refine ⟨rfl, rfl, rfl, ?_⟩
  cases hv : item.properties.cloud_cover with
  | none => simp [formatStacItem, hv]
  | some v => simp [formatStacItem, hv, jsOrStr, toFixed1_ne_empty v]

/-- C10: the overlay effect creates an overlay for a selected image exactly
when its bbox is a four-number array in south/north and west/east order;
images with a missing bbox, a bbox of another length, or inverted coordinates
are skipped, and the overlays over the whole selection are exactly the
per-image overlays of the selected search results. -/
theorem overlayFor_spec (collection : String) (selectedBands : List (String × String))
    (elevationRange thermalRange : Option NumRange) (image : FormattedItem)
    (selectedImages : List String) (searchResults : List FormattedItem) :
    ((overlayFor collection selectedBands elevationRange thermalRange image).isSome ↔
      ∃ west south east north, image.bbox = some [west, south, east, north] ∧
        south ≤ north ∧ west ≤ east) ∧
    overlaysFor collection selectedBands elevationRange thermalRange
        selectedImages searchResults =
      (searchResults.filter (fun item => selectedImages.contains item.id)).filterMap
        (overlayFor collection selectedBands elevationRange thermalRange) := by
  constructor
  · cases hbbox : image.bbox with
    | none => simp [overlayFor, hbbox]
    | some bbox =>
      rcases bbox with _ | ⟨w, _ | ⟨s, _ | ⟨e2, _ | ⟨n, _ | ⟨x, t⟩⟩⟩⟩⟩
      · simp [overlayFor, hbbox]
      · simp [overlayFor, hbbox]
      · simp [overlayFor, hbbox]
      · simp [overlayFor, hbbox]
      · by_cases hv : s > n ∨ w > e2
        · simp only [overlayFor, hbbox]
          rw [if_neg (by simp), if_pos hv]
          simp only [Option.isSome_none, Bool.false_eq_true, false_iff]
          rintro ⟨w2, s2, e3, n2, heq, hsn, hwe⟩
          simp only [Option.some.injEq, List.cons.injEq, and_true] at heq
          obtain ⟨hw, hs, he, hn⟩ := heq
          subst hw; subst hs; subst he; subst hn
          rcases hv with h | h <;> linarith
        · push_neg at hv
          simp only [overlayFor, hbbox]
          rw [if_neg (by simp), if_neg (by push_neg; exact hv)]
          simp only [Option.isSome_some, true_iff]
          exact ⟨w, s, e2, n, rfl, hv.1, hv.2⟩
      · simp [overlayFor, hbbox]
  · unfold overlaysFor
    cases hsel : selectedImages with
    | nil =>
      rw [if_pos rfl]
      rw [List.filter_eq_nil_iff.mpr (by simp)]
      rfl
    | cons a tl =>
      rw [if_neg (by simp)]

lemma bandLookup_some (collection band : String) (bc : BandConfig)
    (hb : bandLookup collection band = some bc) :
    ∃ cfg, tableLookup COLLECTIONS collection = some cfg ∧
      tableLookup cfg.bands band = some bc := by
  unfold bandLookup at hb
  cases h1 : tableLookup COLLECTIONS collection with
  | none => rw [h1] at hb; cases hb
  | some cfg => rw [h1] at hb; exact ⟨cfg, rfl, hb⟩

lemma buildTileUrl_eq_bandLookup (collection itemId band : String) (options : TileOptions) :
    buildTileUrl collection itemId band options =
      (bandLookup collection band).map (fun bc =>
        baseUrl ++ "?" ++ paramsToString (tileParams collection itemId bc band options)) := by
  unfold buildTileUrl bandLookup
  cases h1 : tableLookup COLLECTIONS collection with
  | none => simp
  | some cfg => cases h2 : tableLookup cfg.bands band <;> simp [h2]

lemma getLegendConfig_eq_bandLookup (collection band : String) (options : TileOptions) :
    getLegendConfig collection band options =
      (bandLookup collection band).bind (fun bc =>
        bc.legend.map (applyDynamicLegend collection band options)) := by
  unfold getLegendConfig bandLookup
  cases h1 : tableLookup COLLECTIONS collection with
  | none => simp
  | some cfg =>
    cases h2 : tableLookup cfg.bands band with
    | none => simp [h2]
    | some bc => cases h3 : bc.legend <;> simp [h2, h3]

lemma keyVals_append (a b : List (String × String)) (k : String) :
    keyVals (a ++ b) k = keyVals a k ++ keyVals b k := by
  simp [keyVals, List.filter_append]

lemma keyVals_all_key (l : List String) (k : String) :
    keyVals (l.map (fun v => (k, v))) k = l := by
  induction l with
  | nil => rfl
  | cons a t ih =>
    have hstep : keyVals ((k, a) :: t.map (fun v => (k, v))) k
        = a :: keyVals (t.map (fun v => (k, v))) k := by
      simp [keyVals, List.filter_cons]
    rw [List.map_cons, hstep, ih]

lemma keyVals_map_ne (l : List String) (k k2 : String) (h : k ≠ k2) :
    keyVals (l.map (fun v => (k, v))) k2 = [] := by
  simp only [keyVals]
  rw [List.filter_eq_nil_iff.mpr]
  · rfl
  · intro p hp
    obtain ⟨v, _, hv⟩ := List.mem_map.mp hp
    subst hv
    simp [h]

lemma rescaleParams_spec (collection band : String) (rc : RescaleCfg)
    (options : TileOptions) :
    rescaleParams collection band rc options =
      (match rc with
       | RescaleCfg.null => []
       | RescaleCfg.arr l => l
       | RescaleCfg.str s =>
         if s = "dynamic" then
           (if collection = "cop-dem-glo-30" then
              (options.elevationRange.map rangeStr).toList
            else if collection = "landsat-c2-l2" ∧ band = "thermal" then
              (options.thermalRange.map rangeStr).toList
            else [])
         else if s = "" then [] else [s]).map (fun v => ("rescale", v)) := by
  rcases rc with _ | s | l
  · rfl
  · simp only [rescaleParams]
    by_cases hd : s = "dynamic"
    · rw [if_pos hd, if_pos hd]
      unfold dynamicRescaleParams
      by_cases hc : collection = "cop-dem-glo-30"
      · rw [if_pos hc, if_pos hc]
        cases options.elevationRange <;> simp
      · rw [if_neg hc, if_neg hc]
        by_cases hl : collection = "landsat-c2-l2" ∧ band = "thermal"
        · rw [if_pos hl, if_pos hl]
          cases options.thermalRange <;> simp
        · rw [if_neg hl, if_neg hl]
          rfl
    · rw [if_neg hd, if_neg hd]
      by_cases he : s = ""
      · rw [if_pos he, if_pos he]
        rfl
      · rw [if_neg he, if_neg he]
        rfl
  · simp [rescaleParams]

lemma colormapParams_eq_map (cm : Option String) :
    colormapParams cm =
      (match cm with
       | some c => if c = "" then [] else [c]
       | none => []).map (fun v => ("colormap_name", v)) := by
  cases cm with
  | none => rfl
  | some c =>
    simp only [colormapParams]
    by_cases hc : c = ""
    · rw [if_pos hc, if_pos hc]
      rfl
    · rw [if_neg hc, if_neg hc]
      rfl

lemma COLLECTIONS_wf :
    ∀ p ∈ COLLECTIONS, ∀ q ∈ p.2.bands,
      q.2.colormap ≠ some "" ∧ q.2.rescale ≠ RescaleCfg.str "" := by
  decide

lemma band_wf (collection band : String) (bc : BandConfig)
    (hb : bandLookup collection band = some bc) :
    bc.colormap ≠ some "" ∧ bc.rescale ≠ RescaleCfg.str "" := by
  obtain ⟨cfg, h1, h2⟩ := bandLookup_some collection band bc hb
  exact COLLECTIONS_wf _ (tableLookup_mem h1) _ (tableLookup_mem h2)

lemma applyDynamicLegend_title_gradient (collection band : String)
    (options : TileOptions) (legend : LegendCfg) :
    (applyDynamicLegend collection band options legend).title = legend.title ∧
    (applyDynamicLegend collection band options legend).gradient = legend.gradient := by
  unfold applyDynamicLegend
  split
  · split
    · cases options.elevationRange <;> simp
    · split
      · cases options.thermalRange <;> simp
      · simp
  · simp

/-- C1: for a registered collection and band, buildTileUrl returns the base
tile template URL followed by a question mark and the assembled query
parameters; the parameters contain collection and item (each exactly once,
with the given values), one assets parameter per configured asset, a
colormap_name parameter exactly when the configured colormap is non-null, and
rescale parameters determined by the configured rescale: each entry of an
array, the single value of a non-null string other than dynamic, and for a
dynamic rescale the options-supplied elevation range on cop-dem-glo-30 and
the options-supplied thermal range on the landsat-c2-l2 thermal band. -/
theorem buildTileUrl_spec (collection itemId band : String) (bc : BandConfig)
    (options : TileOptions) (hb : bandLookup collection band = some bc) :
    buildTileUrl collection itemId band options =
      some (baseUrl ++ "?" ++ paramsToString (tileParams collection itemId bc band options)) ∧
    ("collection", collection) ∈ tileParams collection itemId bc band options ∧
    ("item", itemId) ∈ tileParams collection itemId bc band options ∧
    keyVals (tileParams collection itemId bc band options) "collection" = [collection] ∧
    keyVals (tileParams collection itemId bc band options) "item" = [itemId] ∧
    keyVals (tileParams collection itemId bc band options) "assets" = bc.assets ∧
    keyVals (tileParams collection itemId bc band options) "colormap_name" =
      (match bc.colormap with
       | some cm => [cm]
       | none => []) ∧
    keyVals (tileParams collection itemId bc band options) "rescale" =
      (match bc.rescale with
       | RescaleCfg.null => []
       | RescaleCfg.arr l => l
       | RescaleCfg.str s =>
         if s = "dynamic" then
           (if collection = "cop-dem-glo-30" then
              (options.elevationRange.map rangeStr).toList
            else if collection = "landsat-c2-l2" ∧ band = "thermal" then
              (options.thermalRange.map rangeStr).toList
            else [])
         else [s]) := by
  obtain ⟨hcm, hrs⟩ := band_wf collection band bc hb
  refine ⟨?_, ?_, ?_, ?_, ?_, ?_, ?_, ?_⟩
  · rw [buildTileUrl_eq_bandLookup, hb]
    rfl
  · simp [tileParams]
  · simp [tileParams]
  · simp only [tileParams, keyVals_append, rescaleParams_spec, colormapParams_eq_map]
    rw [keyVals_map_ne _ _ _ (by decide), keyVals_map_ne _ _ _ (by decide),
      keyVals_map_ne _ _ _ (by decide)]
    have h0 : keyVals [("collection", collection), ("item", itemId)] "collection"
        = [collection] := rfl
    rw [h0]
    rfl
  · simp only [tileParams, keyVals_append, rescaleParams_spec, colormapParams_eq_map]
    rw [keyVals_map_ne _ _ _ (by decide), keyVals_map_ne _ _ _ (by decide),
      keyVals_map_ne _ _ _ (by decide)]
    have h0 : keyVals [("collection", collection), ("item", itemId)] "item"
        = [itemId] := rfl
    rw [h0]
    rfl
  · simp only [tileParams, keyVals_append, rescaleParams_spec, colormapParams_eq_map]
    rw [keyVals_all_key, keyVals_map_ne _ _ _ (by decide), keyVals_map_ne _ _ _ (by decide)]
    have h0 : keyVals [("collection", collection), ("item", itemId)] "assets"
        = [] := rfl
    rw [h0]
    simp
  · simp only [tileParams, keyVals_append, rescaleParams_spec, colormapParams_eq_map]
    rw [keyVals_all_key, keyVals_map_ne _ _ _ (by decide), keyVals_map_ne _ _ _ (by decide)]
    have h0 : keyVals [("collection", collection), ("item", itemId)] "colormap_name"
        = [] := rfl
    rw [h0]
    simp only [List.nil_append, List.append_nil]
    cases hc : bc.colormap with
    | none => rfl
    | some c =>
      have he : c ≠ "" := fun he => hcm (by rw [hc, he])
      simp [he]
  · simp only [tileParams, keyVals_append, rescaleParams_spec, colormapParams_eq_map]
    rw [keyVals_all_key, keyVals_map_ne _ _ _ (by decide), keyVals_map_ne _ _ _ (by decide)]
    have h0 : keyVals [("collection", collection), ("item", itemId)] "rescale"
        = [] := rfl
    rw [h0]
    simp only [List.nil_append, List.append_nil]
    cases hr : bc.rescale with
    | null => rfl
    | arr l => rfl
    | str s =>
      have hs : s ≠ "" := fun he => hrs (by rw [hr, he])
      by_cases hd : s = "dynamic"
      · simp [hd]
      · simp [hd, hs]

/-- C1 witness: the tile URL specification evaluated at the landsat-c2-l2
visual band with a concrete item id and empty options. -/
theorem buildTileUrl_spec_witness :
    bandLookup "landsat-c2-l2" "visual" = some landsatVisualBand ∧
    (buildTileUrl "landsat-c2-l2" "item0" "visual" {} =
      some (baseUrl ++ "?" ++
        paramsToString (tileParams "landsat-c2-l2" "item0" landsatVisualBand "visual" {})) ∧
    ("collection", "landsat-c2-l2") ∈ tileParams "landsat-c2-l2" "item0" landsatVisualBand "visual" {} ∧
    ("item", "item0") ∈ tileParams "landsat-c2-l2" "item0" landsatVisualBand "visual" {} ∧
    keyVals (tileParams "landsat-c2-l2" "item0" landsatVisualBand "visual" {}) "collection"
      = ["landsat-c2-l2"] ∧
    keyVals (tileParams "landsat-c2-l2" "item0" landsatVisualBand "visual" {}) "item"
      = ["item0"] ∧
    keyVals (tileParams "landsat-c2-l2" "item0" landsatVisualBand "visual" {}) "assets"
      = landsatVisualBand.assets ∧
    keyVals (tileParams "landsat-c2-l2" "item0" landsatVisualBand "visual" {}) "colormap_name"
      = (match landsatVisualBand.colormap with
         | some cm => [cm]
         | none => []) ∧
    keyVals (tileParams "landsat-c2-l2" "item0" landsatVisualBand "visual" {}) "rescale"
      = (match landsatVisualBand.rescale with
         | RescaleCfg.null => []
         | RescaleCfg.arr l => l
         | RescaleCfg.str s =>
           if s = "dynamic" then
             (if "landsat-c2-l2" = "cop-dem-glo-30" then
                ((TileOptions.elevationRange {}).map rangeStr).toList
              else if "landsat-c2-l2" = "landsat-c2-l2" ∧ "visual" = "thermal" then
                ((TileOptions.thermalRange {}).map rangeStr).toList
              else [])
           else [s])) :=
  ⟨rfl, buildTileUrl_spec "landsat-c2-l2" "item0" "visual" landsatVisualBand {} rfl⟩

/-- C3 counterexample: the visual band is defined for sentinel-2-l2a, but its
legend config is null, so getLegendConfig returns null rather than a legend
object for it, refuting the claim for every defined band. -/
theorem getLegendConfig_visual_counterexample :
    (bandLookup "sentinel-2-l2a" "visual").isSome = true ∧
    getLegendConfig "sentinel-2-l2a" "visual" {} = none :=
  ⟨rfl, rfl⟩

/-- C3 amended: for a registered collection and band whose legend config is
non-null, getLegendConfig returns the configured legend (title, min, max,
gradient) with the dynamic substitution applied; on the cop-dem-glo-30
elevation band the min and max labels become the supplied elevation range
suffixed with m, and on the landsat-c2-l2 thermal band they become the
supplied thermal range values. -/
theorem getLegendConfig_spec (collection band : String) (bc : BandConfig)
    (legend : LegendCfg) (options : TileOptions)
    (hb : bandLookup collection band = some bc) (hl : bc.legend = some legend) :
    getLegendConfig collection band options =
      some (applyDynamicLegend collection band options legend) ∧
    (applyDynamicLegend collection band options legend).title = legend.title ∧
    (applyDynamicLegend collection band options legend).gradient = legend.gradient ∧
    (collection = "cop-dem-glo-30" → band = "elevation" →
      applyDynamicLegend collection band options legend =
        (match options.elevationRange with
         | some r => { legend with min := toString r.min ++ "m", max := toString r.max ++ "m" }
         | none => legend)) ∧
    (collection = "landsat-c2-l2" → band = "thermal" →
      applyDynamicLegend collection band options legend =
        (match options.thermalRange with
         | some r => { legend with min := toString r.min, max := toString r.max }
         | none => legend)) := by
  refine ⟨?_, (applyDynamicLegend_title_gradient collection band options legend).1,
    (applyDynamicLegend_title_gradient collection band options legend).2, ?_, ?_⟩
  · rw [getLegendConfig_eq_bandLookup, hb]
    simp [hl]
  · intro hc hbnd
    subst hc
    subst hbnd
    have hbc : bc = demElevationBand :=
      Option.some.inj
        (hb.symm.trans (rfl : bandLookup "cop-dem-glo-30" "elevation" = some demElevationBand))
    subst hbc
    have hlg : legend = demElevationLegend :=
      (Option.some.inj
        ((rfl : demElevationBand.legend = some demElevationLegend).symm.trans hl)).symm
    subst hlg
    cases hr : options.elevationRange <;>
      simp [applyDynamicLegend, demElevationLegend, hr]
  · intro hc hbnd
    subst hc
    subst hbnd
    have hbc : bc = landsatThermalBand :=
      Option.some.inj
        (hb.symm.trans (rfl : bandLookup "landsat-c2-l2" "thermal" = some landsatThermalBand))
    subst hbc
    have hlg : legend = landsatThermalLegend :=
      (Option.some.inj
        ((rfl : landsatThermalBand.legend = some landsatThermalLegend).symm.trans hl)).symm
    subst hlg
    cases hr : options.thermalRange <;>
      simp [applyDynamicLegend, landsatThermalLegend, hr]

/-- C3 witness: the legend specification evaluated at the cop-dem-glo-30
elevation band with a supplied elevation range of 0 to 100, whose labels
evaluate to 0m and 100m. -/
theorem getLegendConfig_spec_witness :
    bandLookup "cop-dem-glo-30" "elevation" = some demElevationBand ∧
    demElevationBand.legend = some demElevationLegend ∧
    (applyDynamicLegend "cop-dem-glo-30" "elevation"
      { elevationRange := some { min := 0, max := 100 } } demElevationLegend).min = "0m" ∧
    (applyDynamicLegend "cop-dem-glo-30" "elevation"
      { elevationRange := some { min := 0, max := 100 } } demElevationLegend).max = "100m" ∧
    (getLegendConfig "cop-dem-glo-30" "elevation"
        { elevationRange := some { min := 0, max := 100 } } =
      some (applyDynamicLegend "cop-dem-glo-30" "elevation"
        { elevationRange := some { min := 0, max := 100 } } demElevationLegend) ∧
    (applyDynamicLegend "cop-dem-glo-30" "elevation"
      { elevationRange := some { min := 0, max := 100 } } demElevationLegend).title
        = demElevationLegend.title ∧
    (applyDynamicLegend "cop-dem-glo-30" "elevation"
      { elevationRange := some { min := 0, max := 100 } } demElevationLegend).gradient
        = demElevationLegend.gradient ∧
    ("cop-dem-glo-30" = "cop-dem-glo-30" → "elevation" = "elevation" →
      applyDynamicLegend "cop-dem-glo-30" "elevation"
        { elevationRange := some { min := 0, max := 100 } } demElevationLegend =
        (match (TileOptions.elevationRange
            { elevationRange := some { min := 0, max := 100 } }) with
         | some r => { demElevationLegend with
             min := toString r.min ++ "m", max := toString r.max ++ "m" }
         | none => demElevationLegend)) ∧
    ("cop-dem-glo-30" = "landsat-c2-l2" → "elevation" = "thermal" →
      applyDynamicLegend "cop-dem-glo-30" "elevation"
        { elevationRange := some { min := 0, max := 100 } } demElevationLegend =
        (match (TileOptions.thermalRange
            { elevationRange := some { min := 0, max := 100 } }) with
         | some r => { demElevationLegend with
             min := toString r.min, max := toString r.max }
         | none => demElevationLegend))) :=
  ⟨rfl, rfl, rfl, rfl,
    getLegendConfig_spec "cop-dem-glo-30" "elevation" demElevationBand demElevationLegend
      { elevationRange := some { min := 0, max := 100 } } rfl rfl⟩

/-- C9 counterexample: toString is not a key of the COLLECTIONS registry (nor
of the sentinel-2-l2a bands), yet under JavaScript object semantics the
inherited Object.prototype property is truthy, the early-return guards do not
fire, and buildTileUrl throws a TypeError for toString in the collection
position and in the band position, and getLegendConfig throws for it in the
collection position — instead of returning null as the claim states. -/
theorem prototype_key_counterexample :
    tableLookup COLLECTIONS "toString" = none ∧
    bandLookup "sentinel-2-l2a" "toString" = none ∧
    buildTileUrlJs "toString" "item0" "vv" {} = Except.error JsTypeError.typeError ∧
    buildTileUrlJs "sentinel-2-l2a" "item0" "toString" {} = Except.error JsTypeError.typeError ∧
    getLegendConfigJs "toString" "vv" {} = Except.error JsTypeError.typeError :=
  ⟨rfl, rfl, rfl, rfl, rfl⟩

/-- C9 amended: for a collection id that is neither a registry key nor an
Object.prototype property name, or a registered collection with a band id
that is neither a bands key nor an Object.prototype property name,
buildTileUrl and getLegendConfig return null rather than throwing — and off
the Object.prototype names the full JavaScript semantics agrees with the pure
own-key model; but for an unregistered id that collides with an
Object.prototype property name, buildTileUrl throws a TypeError in both the
collection and the band position, and getLegendConfig throws in the
collection position while returning null in the band position.
getLegendConfig additionally returns null whenever the selected band has a
null legend config, for example the Sentinel-2 and Landsat visual bands. -/
theorem invalid_lookup_spec (collection itemId band : String) (options : TileOptions) :
    (buildTileUrlJs collection itemId band options = Except.ok none ↔
      ((tableLookup COLLECTIONS collection = none ∧ collection ∉ protoKeys) ∨
       (∃ cfg, tableLookup COLLECTIONS collection = some cfg ∧
         tableLookup cfg.bands band = none ∧ band ∉ protoKeys))) ∧
    (buildTileUrlJs collection itemId band options = Except.error JsTypeError.typeError ↔
      ((tableLookup COLLECTIONS collection = none ∧ collection ∈ protoKeys) ∨
       (∃ cfg, tableLookup COLLECTIONS collection = some cfg ∧
         tableLookup cfg.bands band = none ∧ band ∈ protoKeys))) ∧
    (getLegendConfigJs collection band options = Except.ok none ↔
      ((tableLookup COLLECTIONS collection = none ∧ collection ∉ protoKeys) ∨
       (∃ cfg, tableLookup COLLECTIONS collection = some cfg ∧
         (tableLookup cfg.bands band = none ∨
          ∃ bc, tableLookup cfg.bands band = some bc ∧ bc.legend = none)))) ∧
    (getLegendConfigJs collection band options = Except.error JsTypeError.typeError ↔
      (tableLookup COLLECTIONS collection = none ∧ collection ∈ protoKeys)) ∧
    (collection ∉ protoKeys → band ∉ protoKeys →
      buildTileUrlJs collection itemId band options =
        Except.ok (buildTileUrl collection itemId band options) ∧
      getLegendConfigJs collection band options =
        Except.ok (getLegendConfig collection band options)) ∧
    getLegendConfigJs "sentinel-2-l2a" "visual" options = Except.ok none ∧
    getLegendConfigJs "landsat-c2-l2" "visual" options = Except.ok none := by
  refine ⟨?_, ?_, ?_, ?_, ?_, rfl, rfl⟩
  · cases h1 : tableLookup COLLECTIONS collection with
    | none =>
      by_cases hp1 : collection ∈ protoKeys <;>
        simp [buildTileUrlJs, jsIndex, h1, hp1]
    | some cfg =>
      cases h2 : tableLookup cfg.bands band with
      | none =>
        by_cases hp2 : band ∈ protoKeys <;>
          simp [buildTileUrlJs, jsIndex, h1, h2, hp2]
      | some bc => simp [buildTileUrlJs, jsIndex, h1, h2]
  · cases h1 : tableLookup COLLECTIONS collection with
    | none =>
      by_cases hp1 : collection ∈ protoKeys <;>
        simp [buildTileUrlJs, jsIndex, h1, hp1]
    | some cfg =>
      cases h2 : tableLookup cfg.bands band with
      | none =>
        by_cases hp2 : band ∈ protoKeys <;>
          simp [buildTileUrlJs, jsIndex, h1, h2, hp2]
      | some bc => simp [buildTileUrlJs, jsIndex, h1, h2]
  · cases h1 : tableLookup COLLECTIONS collection with
    | none =>
      by_cases hp1 : collection ∈ protoKeys <;>
        simp [getLegendConfigJs, jsIndex, h1, hp1]
    | some cfg =>
      cases h2 : tableLookup cfg.bands band with
      | none =>
        by_cases hp2 : band ∈ protoKeys <;>
          simp [getLegendConfigJs, jsIndex, h1, h2, hp2]
      | some bc =>
        cases h3 : bc.legend with
        | none => simp [getLegendConfigJs, jsIndex, h1, h2, h3]
        | some lg => simp [getLegendConfigJs, jsIndex, h1, h2, h3]
  · cases h1 : tableLookup COLLECTIONS collection with
    | none =>
      by_cases hp1 : collection ∈ protoKeys <;>
        simp [getLegendConfigJs, jsIndex, h1, hp1]
    | some cfg =>
      cases h2 : tableLookup cfg.bands band with
      | none =>
        by_cases hp2 : band ∈ protoKeys <;>
          simp [getLegendConfigJs, jsIndex, h1, h2, hp2]
      | some bc =>
        cases h3 : bc.legend with
        | none => simp [getLegendConfigJs, jsIndex, h1, h2, h3]
        | some lg => simp [getLegendConfigJs, jsIndex, h1, h2, h3]
  · intro hp1 hp2
    cases h1 : tableLookup COLLECTIONS collection with
    | none =>
      constructor
      · simp [buildTileUrlJs, buildTileUrl, jsIndex, h1, hp1]
      · simp [getLegendConfigJs, getLegendConfig, jsIndex, h1, hp1]
    | some cfg =>
      cases h2 : tableLookup cfg.bands band with
      | none =>
        constructor
        · simp [buildTileUrlJs, buildTileUrl, jsIndex, h1, h2, hp2]
        · simp [getLegendConfigJs, getLegendConfig, jsIndex, h1, h2, hp2]
      | some bc =>
        constructor
        · simp [buildTileUrlJs, buildTileUrl, jsIndex, h1, h2]
        · cases h3 : bc.legend with
          | none => simp [getLegendConfigJs, getLegendConfig, jsIndex, h1, h2, h3]
          | some lg => simp [getLegendConfigJs, getLegendConfig, jsIndex, h1, h2, h3]
